import Mathlib

/-!
Shallow embedding of `rain_daily_pr.py`, a script that fetches a weather
forecast for two fixed cities and composes a Telegram message.

Modelling conventions:
* Python dict field lookups that may fail become `Option` fields; a lookup on
  an absent field yields `PyErr.keyError` with the field name, exactly where
  the Python expression `data["daily"][field]` would raise.
* Numeric JSON values are modelled as `Int`; the `int(...)` conversions in the
  source are then the identity.  A JSON `null` in the daily
  max-precipitation array is `Option.none`.
* Fallible code runs in `Except PyErr`; an `Except.error` value marks the
  exception the Python code would raise at that point.
* The system clock (`now_br_str`, `today_str`, `tomorrow_str`) and the HTTP
  fetch (`fetch_open_meteo`) are external effects; they are passed in as an
  explicit `Clock` value and a fetch oracle.  `send_telegram` is the external
  sink: `run_forecast` returns the text that would be sent to it.
-/

/-- Exceptions the script can raise, named after the Python exception types. -/
inductive PyErr where
  | keyError : String → PyErr
  | indexError : PyErr
  | valueError : PyErr
  | runtimeError : String → PyErr
deriving DecidableEq, Repr

/-- The `"daily"` section of the provider JSON payload.  Each field is
`Option` so that an absent key can be modelled (lookup then raises
`KeyError`).  Entries of `precipitation_probability_max` are themselves
`Option Int` because the provider may return `null` for a day. -/
structure DailySection where
  time : Option (List String)
  weathercode : Option (List Int)
  precipitation_probability_max : Option (List (Option Int))
deriving Repr

/-- The `"hourly"` section of the provider JSON payload. -/
structure HourlySection where
  time : Option (List String)
  precipitation_probability : Option (List Int)
deriving Repr

/-- A provider JSON payload, as consumed by `summarize_day`. -/
structure Payload where
  daily : DailySection
  hourly : HourlySection
deriving Repr

/-- Dict field access: `section[k]` raises `KeyError k` when the key is
absent. -/
def getField {α : Type} (k : String) : Option α → Except PyErr α
  | none => .error (.keyError k)
  | some v => .ok v

/-- List indexing `l[i]` with the Python `IndexError` on out-of-range. -/
def pyGet {α : Type} (l : List α) (i : Nat) : Except PyErr α :=
  match l[i]? with
  | none => .error .indexError
  | some v => .ok v

/-- Boolean prefix test on character lists (first argument is the candidate
prefix). -/
def strPre : List Char → List Char → Bool
  | [], _ => true
  | _ :: _, [] => false
  | p :: ps, c :: cs => p == c && strPre ps cs

/-- Python `t.startswith(pre)`. -/
def pyStartsWith (t pre : String) : Bool :=
  strPre pre.data t.data

/-- Python string slice `t[a:b]` (with `a ≤ b`), as a character list. -/
def pySlice (t : String) (a b : Nat) : List Char :=
  (t.data.drop a).take (b - a)

/-- Python `int(s)` on a string of characters.  The model covers the
all-digits case exactly and raises `ValueError` on every other string; the
source only ever applies it to the two hour digits of a provider timestamp,
so the forms Python would additionally accept (signs, surrounding
whitespace) never occur. -/
def pyInt (cs : List Char) : Except PyErr Int :=
  if cs ≠ [] ∧ cs.all (fun c => c.isDigit) then
    .ok ((cs.foldl (fun a c => a * 10 + (c.toNat - 48)) 0 : Nat) : Int)
  else .error .valueError

-- SUNNY_CODES = {0, 1};  CLOUDY_CODES = {2, 3, 45, 48}  (sets used only for
-- membership, modelled as lists)
def SUNNY_CODES : List Int := [0, 1]
def CLOUDY_CODES : List Int := [2, 3, 45, 48]

/-- `period_from_hour` from the source: four period-of-day buckets. -/
def period_from_hour (h : Int) : String :=
  if 0 ≤ h ∧ h ≤ 5 then "madrugada"
  else if 6 ≤ h ∧ h ≤ 11 then "manhã"
  else if 12 ≤ h ∧ h ≤ 17 then "tarde"
  else "noite"

/-- The loop of `summarize_day` that filters the hourly series to the target
date: for each `(t, p)` with `t.startswith(target_date)`, the pair
`(int(t[11:13]), int(p))` is collected, in series order.  A malformed
timestamp raises `ValueError` just as `int` would. -/
def collectDayProbs (target : String) : List (String × Int) → Except PyErr (List (Int × Int))
  | [] => .ok []
  | (t, p) :: rest =>
    if pyStartsWith t target then
      match pyInt (pySlice t 11 13) with
      | .error e => .error e
      | .ok h =>
        match collectDayProbs target rest with
        | .error e => .error e
        | .ok l => .ok ((h, p) :: l)
    else collectDayProbs target rest

/-- Python `max(xs, key=lambda x: x[1])` on a nonempty list `seed :: rest`:
a left-to-right scan that replaces the current best only on a strictly
greater key, so the first element attaining the maximum wins. -/
def maxBySecond (seed : Int × Int) : List (Int × Int) → Int × Int
  | [] => seed
  | y :: ys => maxBySecond (if y.2 > seed.2 then y else seed) ys

/-- `max(day_probs, key=lambda x: x[1])` behind the `if day_probs:` guard:
`none` for the empty list (the Python code never calls `max` then). -/
def pyMaxByProb : List (Int × Int) → Option (Int × Int)
  | [] => none
  | x :: ys => some (maxBySecond x ys)

/-- `summarize_day(data, target_date)` from the source, in `Except PyErr`. -/
def summarize_day (data : Payload) (target_date : String) : Except PyErr String :=
  match data.daily.time with
  | none => .error (.keyError "time")
  | some daily_dates =>
  match data.daily.weathercode with
  | none => .error (.keyError "weathercode")
  | some daily_wc =>
  match data.daily.precipitation_probability_max with
  | none => .error (.keyError "precipitation_probability_max")
  | some daily_ppmax =>
  if !(daily_dates.contains target_date) then .ok "indisponível 😕"
  else
    let idx := daily_dates.indexOf target_date
    match pyGet daily_wc idx with
    | .error e => .error e
    | .ok wc =>
    match pyGet daily_ppmax idx with
    | .error e => .error e
    | .ok ppOpt =>
    -- ppmax = int(daily_ppmax[idx]) if daily_ppmax[idx] is not None else 0
    let ppmax : Int := ppOpt.getD 0
    match data.hourly.time with
    | none => .error (.keyError "time")
    | some times =>
    match data.hourly.precipitation_probability with
    | none => .error (.keyError "precipitation_probability")
    | some probs =>
    match collectDayProbs target_date (times.zip probs) with
    | .error e => .error e
    | .ok day_probs =>
      -- if day_probs: peak_hour, peak_prob = max(day_probs, key=...)
      -- else:        peak_hour, peak_prob = None, ppmax
      let peak : Option Int × Int :=
        match pyMaxByProb day_probs with
        | some m => (some m.1, m.2)
        | none => (none, ppmax)
      let peak_hour := peak.1
      if ppmax > 60 then
        match peak_hour with
        | none => .ok s!"Possibilidade de chuva <b>{ppmax}%</b>"
        | some ph =>
          let periodo := period_from_hour ph
          .ok s!"Possibilidade de chuva <b>{ppmax}%</b> ({periodo})"
      else if SUNNY_CODES.contains wc then .ok "Dia <b>ensolarado</b>"
      else if CLOUDY_CODES.contains wc then .ok "Dia <b>nublado</b>"
      else .ok "Dia <b>nublado</b>"

/-- A configured location: display name and coordinates, as in `CITIES`.
The coordinates are only ever handed to the external fetch collaborator. -/
structure City where
  name : String
  lat : ℚ
  lon : ℚ

def CITIES : List City :=
  [⟨"Curitiba", -25.4284, -49.2733⟩,
   ⟨"Araucária", -25.5874, -49.4050⟩]

/-- The ambient wall clock in the configured time zone.  The source functions
`now_br_str`, `today_str` and `tomorrow_str` read the system clock; the
embedding passes their three results in explicitly. -/
structure Clock where
  now_br_str : String
  today_str : String
  tomorrow_str : String

/-- The per-city loop body of `run_forecast`: fetch, summarize, and format
one bullet line per configured city, in declared order.  A fetch failure or
a summarization exception aborts the whole run, as in the source. -/
def cityLines (fetch_open_meteo : ℚ → ℚ → Except PyErr Payload) (target : String) :
    List City → Except PyErr (List String)
  | [] => .ok []
  | c :: cs =>
    match fetch_open_meteo c.lat c.lon with
    | .error e => .error e
    | .ok data =>
    match summarize_day data target with
    | .error e => .error e
    | .ok summary =>
    match cityLines fetch_open_meteo target cs with
    | .error e => .error e
    | .ok rest =>
      let nm := c.name
      .ok (s!"• <b>{nm}</b>: {summary}" :: rest)

/-- Python `s.lower()`, character-wise (ASCII case mapping; the mode strings
the script compares against are ASCII). -/
def pyLower (s : String) : String :=
  String.mk (s.data.map Char.toLower)

/-- Python `s.strip()`: remove leading and trailing whitespace. -/
def pyStrip (s : String) : String :=
  String.mk
    (((s.data.dropWhile Char.isWhitespace).reverse.dropWhile
      Char.isWhitespace).reverse)

/-- `run_forecast(mode)` from the source.  The returned string is the text
handed to `send_telegram` (the external sink): a title line with the current
time, a blank line, then one line per city. -/
def run_forecast (clock : Clock) (fetch_open_meteo : ℚ → ℚ → Except PyErr Payload)
    (mode : String) : Except PyErr String :=
  let mode := pyStrip (pyLower mode)
  let tt :=
    if mode = "tomorrow" then (clock.tomorrow_str, "🗓️ <b>Previsão de amanhã</b>")
    else (clock.today_str, "☀️🌧️ <b>Previsão de hoje</b>")
  let target := tt.1
  let title := tt.2
  match cityLines fetch_open_meteo target CITIES with
  | .error e => .error e
  | .ok ls =>
    let nowS := clock.now_br_str
    .ok ("\n".intercalate ([s!"{title} — {nowS}", ""] ++ ls))

/-- Python truthiness of `os.environ.get(...)`: `None` and the empty string
are falsy, every other string is truthy. -/
def pyTruthy : Option String → Bool
  | none => false
  | some s => !(s.isEmpty)

/-- The module-level guard `if not BOT_TOKEN or not CHAT_ID`. -/
def credentialsMissing (bot_token chat_id : Option String) : Bool :=
  !(pyTruthy bot_token) || !(pyTruthy chat_id)

/-- The whole script run: the module-level credential check (which raises
`RuntimeError` before anything else happens), then `main()`, which picks the
mode from `sys.argv` (index 1, defaulting to `"today"`) and calls
`run_forecast`.  The result is the message text that would be sent. -/
def script_main (bot_token chat_id : Option String) (clock : Clock)
    (fetch_open_meteo : ℚ → ℚ → Except PyErr Payload) (argv : List String) :
    Except PyErr String :=
  if credentialsMissing bot_token chat_id then
    .error (.runtimeError "Environment variables TG_BOT_TOKEN or TG_CHAT_ID not set.")
  else
    let mode := argv.getD 1 "today"
    run_forecast clock fetch_open_meteo mode

/-- Right-to-left reformulation of the first-maximum scan: keep the seed
unless the best of the rest is strictly greater.  Proven equal to
`maxBySecond` below; this shape makes the first-occurrence property direct. -/
def pickFirstMax (x : Int × Int) : List (Int × Int) → Int × Int
  | [] => x
  | y :: ys =>
    let m := pickFirstMax y ys
    if m.2 > x.2 then m else x

/-- The peak hour `summarize_day` computes: the hour component of the
first-occurring maximum-probability pair, `none` when the filtered list is
empty. -/
def peakHour (dp : List (Int × Int)) : Option Int :=
  (pyMaxByProb dp).map Prod.fst

/-- The rain-possibility line, with the period-of-day annotation exactly when
a peak hour exists. -/
def rainLine (ppmax : Int) (ph : Option Int) : String :=
  match ph with
  | none => s!"Possibilidade de chuva <b>{ppmax}%</b>"
  | some h => s!"Possibilidade de chuva <b>{ppmax}%</b> ({period_from_hour h})"

/-- The classification tail of `summarize_day`, as a function of the decoded
weather code, daily max precipitation probability, and peak hour. -/
def classify (wc ppmax : Int) (ph : Option Int) : String :=
  if ppmax > 60 then rainLine ppmax ph
  else if SUNNY_CODES.contains wc then "Dia <b>ensolarado</b>"
  else if CLOUDY_CODES.contains wc then "Dia <b>nublado</b>"
  else "Dia <b>nublado</b>"

/-- Concrete payload used in witnesses: on 2025-01-01 the daily series has
weather code 61 and max precipitation 75%, and the hourly series peaks with
99% at hour 14 (deliberately different from the daily 75%). -/
def rainPayload : Payload :=
  { daily := { time := some ["2025-01-01", "2025-01-02"],
               weathercode := some [61, 1],
               precipitation_probability_max := some [some 75, some 10] },
    hourly := { time := some ["2025-01-01T13:00", "2025-01-01T14:00",
                              "2025-01-02T05:00"],
                precipitation_probability := some [10, 99, 5] } }

/-- Concrete payload used in witnesses: weather code 1 (sunny) on 2025-01-01
with max precipitation 10% and an empty hourly series. -/
def sunnyPayload : Payload :=
  { daily := { time := some ["2025-01-01"],
               weathercode := some [1],
               precipitation_probability_max := some [some 10] },
    hourly := { time := some [], precipitation_probability := some [] } }

/-- Concrete payload whose daily section lacks the weathercode field. -/
def noWeathercodePayload : Payload :=
  { daily := { time := some ["2025-01-01"],
               weathercode := none,
               precipitation_probability_max := some [some 10] },
    hourly := { time := some [], precipitation_probability := some [] } }

/-- Concrete payload used in witnesses: daily max precipitation exactly 60%
with a cloudy weather code. -/
def borderPayload60 : Payload :=
  { daily := { time := some ["2025-01-01"],
               weathercode := some [3],
               precipitation_probability_max := some [some 60] },
    hourly := { time := some ["2025-01-01T09:00"],
                precipitation_probability := some [60] } }

/-- Concrete payload identical to `borderPayload60` except that the daily
max precipitation is 61%. -/
def borderPayload61 : Payload :=
  { daily := { time := some ["2025-01-01"],
               weathercode := some [3],
               precipitation_probability_max := some [some 61] },
    hourly := { time := some ["2025-01-01T09:00"],
                precipitation_probability := some [61] } }

/-- Concrete payload used in witnesses: the daily max precipitation entry is
null and the weather code is 0 (sunny). -/
def nullProbPayload : Payload :=
  { daily := { time := some ["2025-01-01"],
               weathercode := some [0],
               precipitation_probability_max := some [none] },
    hourly := { time := some ["2025-01-01T10:00"],
                precipitation_probability := some [30] } }

/-- Concrete clock used in witnesses. -/
def witnessClock : Clock :=
  { now_br_str := "01/01 06:00", today_str := "2025-01-01",
    tomorrow_str := "2025-01-02" }

/-- Concrete fetch oracle used in witnesses: the first configured city gets
`rainPayload`, every other coordinate gets `sunnyPayload`. -/
def witnessFetch : ℚ → ℚ → Except PyErr Payload :=
  fun la _ => if la = (-25.4284 : ℚ) then .ok rainPayload else .ok sunnyPayload

theorem pickFirstMax_seed_le (x : Int × Int) (ys : List (Int × Int)) :
    x.2 ≤ (pickFirstMax x ys).2 := by
  cases ys with
  | nil => exact le_refl _
  | cons y ys =>
    simp only [pickFirstMax]
    split
    · omega
    · exact le_refl _

theorem pickFirstMax_seed_exchange (x y : Int × Int) (ys : List (Int × Int))
    (hyx : y.2 ≤ x.2) :
    pickFirstMax x ys =
      if (pickFirstMax y ys).2 > x.2 then pickFirstMax y ys else x := by
  cases ys with
  | nil =>
    simp only [pickFirstMax]
    rw [if_neg (by omega)]
  | cons z zs =>
    simp only [pickFirstMax]
    by_cases hn : (pickFirstMax z zs).2 > y.2
    · rw [if_pos hn]
    · rw [if_neg hn, if_neg (by omega), if_neg (by omega)]

theorem maxBySecond_eq_pickFirstMax (ys : List (Int × Int)) (x : Int × Int) :
    maxBySecond x ys = pickFirstMax x ys := by
  induction ys generalizing x with
  | nil => rfl
  | cons y ys ih =>
    simp only [maxBySecond, pickFirstMax]
    by_cases hyx : y.2 > x.2
    · rw [if_pos hyx, ih y,
        if_pos (lt_of_lt_of_le hyx (pickFirstMax_seed_le y ys))]
    · rw [if_neg hyx, ih x, pickFirstMax_seed_exchange x y ys (by omega)]

theorem pickFirstMax_is_max (x : Int × Int) (ys : List (Int × Int)) :
    ∀ z ∈ x :: ys, z.2 ≤ (pickFirstMax x ys).2 := by
  induction ys generalizing x with
  | nil =>
    intro z hz
    rcases List.mem_singleton.mp hz with rfl
    exact le_refl _
  | cons y ys ih =>
    intro z hz
    simp only [pickFirstMax]
    rcases List.mem_cons.mp hz with rfl | hz'
    · split
      · omega
      · exact le_refl _
    · have hle : z.2 ≤ (pickFirstMax y ys).2 := ih y z hz'
      split
      · exact hle
      · omega

theorem pickFirstMax_find? (x : Int × Int) (ys : List (Int × Int)) :
    (x :: ys).find? (fun z => z.2 == (pickFirstMax x ys).2) =
      some (pickFirstMax x ys) := by
  induction ys generalizing x with
  | nil => simp [pickFirstMax, List.find?]
  | cons y ys ih =>
    simp only [pickFirstMax]
    by_cases hn : (pickFirstMax y ys).2 > x.2
    · rw [if_pos hn]
      rw [List.find?_cons_of_neg _ (by simp; omega)]
      exact ih y
    · rw [if_neg hn]
      exact List.find?_cons_of_pos _ (by simp)

/-- Workhorse lemma: on a payload whose sections carry all expected fields,
whose daily series contains the target date, and whose hourly series filters
without error, `summarize_day` returns exactly the classification of the
decoded values. -/
theorem summarize_day_eq
    (d : Payload) (t : String) (dates : List String) (wcs : List Int)
    (pps : List (Option Int)) (times : List String) (probs : List Int)
    (wc : Int) (ppOpt : Option Int) (dp : List (Int × Int))
    (ht : d.daily.time = some dates)
    (hw : d.daily.weathercode = some wcs)
    (hp : d.daily.precipitation_probability_max = some pps)
    (hmem : dates.contains t = true)
    (hwc : wcs[dates.indexOf t]? = some wc)
    (hpp : pps[dates.indexOf t]? = some ppOpt)
    (hht : d.hourly.time = some times)
    (hhp : d.hourly.precipitation_probability = some probs)
    (hdp : collectDayProbs t (times.zip probs) = .ok dp) :
    summarize_day d t = .ok (classify wc (ppOpt.getD 0) (peakHour dp)) := by
  unfold summarize_day
  rw [ht, hw, hp]
  simp only [hmem, Bool.not_true, Bool.false_eq_true, if_false, pyGet, hwc, hpp,
    hht, hhp, hdp]
  unfold classify rainLine peakHour
  cases hm : pyMaxByProb dp with
  | none => simp only [hm]; split_ifs <;> rfl
  | some m => simp only [hm]; split_ifs <;> rfl

/-- C5: for every hour 0–23 the period-of-day function returns exactly one of
the four labels, with 0–5 mapped to the dawn label, 6–11 to morning, 12–17 to
afternoon and 18–23 to evening; the four buckets cover 0–23 with no overlap
(each label is returned precisely on its bucket). -/
theorem claim_C5 (h : Int) (h0 : 0 ≤ h) (h23 : h ≤ 23) :
    (period_from_hour h = "madrugada" ∨ period_from_hour h = "manhã" ∨
      period_from_hour h = "tarde" ∨ period_from_hour h = "noite") ∧
    (period_from_hour h = "madrugada" ↔ h ≤ 5) ∧
    (period_from_hour h = "manhã" ↔ 6 ≤ h ∧ h ≤ 11) ∧
    (period_from_hour h = "tarde" ↔ 12 ≤ h ∧ h ≤ 17) ∧
    (period_from_hour h = "noite" ↔ 18 ≤ h) := by
  interval_cases h <;> decide

/-- Witness for C5 at hour 14: the hypotheses hold and the afternoon label is
returned. -/
theorem claim_C5_witness :
    (0 : Int) ≤ 14 ∧ (14 : Int) ≤ 23 ∧ period_from_hour 14 = "tarde" :=
  ⟨by decide, by decide,
    ((claim_C5 14 (by decide) (by decide)).2.2.2.1).mpr (by decide)⟩

/-- C3: for every nonempty list of (hour, probability) pairs filtered from
the hourly series for the target date, the pair the peak computation selects
attains the maximum probability and is the first entry, in series order,
whose probability equals that maximum — so on ties the lowest index wins. -/
theorem claim_C3 (target : String) (times : List String) (probs : List Int)
    (x : Int × Int) (ys : List (Int × Int))
    (_hdp : collectDayProbs target (times.zip probs) = .ok (x :: ys)) :
    ∃ m, pyMaxByProb (x :: ys) = some m ∧
      (∀ z ∈ x :: ys, z.2 ≤ m.2) ∧
      (x :: ys).find? (fun z => z.2 == m.2) = some m := by
  refine ⟨maxBySecond x ys, rfl, ?_, ?_⟩
  · rw [maxBySecond_eq_pickFirstMax]
    exact pickFirstMax_is_max x ys
  · rw [maxBySecond_eq_pickFirstMax]
    exact pickFirstMax_find? x ys

/-- Witness for C3: an hourly series whose hours 7 and 9 tie at the maximum
probability 80. -/
theorem claim_C3_witness :
    ∃ m, pyMaxByProb [((3 : Int), (40 : Int)), (7, 80), (9, 80)] = some m ∧
      (∀ z ∈ [((3 : Int), (40 : Int)), (7, 80), (9, 80)], z.2 ≤ m.2) ∧
      [((3 : Int), (40 : Int)), (7, 80), (9, 80)].find?
        (fun z => z.2 == m.2) = some m :=
  claim_C3 "2025-01-01"
    ["2025-01-01T03:00", "2025-01-01T07:00", "2025-01-01T09:00"]
    [40, 80, 80] (3, 40) [(7, 80), (9, 80)] (by rfl)

/-- C4: on a payload whose daily section carries all three expected fields
but whose date list does not contain the target date, `summarize_day`
returns the literal sentinel string and raises no exception. -/
theorem claim_C4 (d : Payload) (t : String) (dates : List String)
    (wcs : List Int) (pps : List (Option Int))
    (ht : d.daily.time = some dates)
    (hw : d.daily.weathercode = some wcs)
    (hp : d.daily.precipitation_probability_max = some pps)
    (hmem : dates.contains t = false) :
    summarize_day d t = .ok "indisponível 😕" := by
  unfold summarize_day
  rw [ht, hw, hp]
  simp only [hmem, Bool.not_false, if_true]

/-- Witness for C4: `sunnyPayload` only covers 2025-01-01, so asking for
2025-01-09 yields the sentinel. -/
theorem claim_C4_witness :
    summarize_day sunnyPayload "2025-01-09" = .ok "indisponível 😕" :=
  claim_C4 sunnyPayload "2025-01-09" ["2025-01-01"] [1] [some 10]
    rfl rfl rfl (by rfl)

/-- Counterexample for C1 as stated: on a payload whose daily section lacks
the weathercode field, `summarize_day` raises `KeyError` instead of
returning the sentinel string. -/
theorem claim_C1_cex :
    summarize_day noWeathercodePayload "2025-01-01" =
      .error (.keyError "weathercode") ∧
    summarize_day noWeathercodePayload "2025-01-01" ≠ .ok "indisponível 😕" := by
  refine ⟨rfl, ?_⟩
  intro hcontra
  rw [show summarize_day noWeathercodePayload "2025-01-01" =
      .error (.keyError "weathercode") from rfl] at hcontra
  exact Except.noConfusion hcontra

/-- C1 amended: when the daily section lacks one of the expected fields (the
date list, the weather-code list, or the max-precipitation-probability list),
`summarize_day` raises a `KeyError` naming a missing field — it does not
return the sentinel string. -/
theorem claim_C1 (d : Payload) (t : String)
    (h : d.daily.time = none ∨ d.daily.weathercode = none ∨
      d.daily.precipitation_probability_max = none) :
    ∃ k, summarize_day d t = .error (.keyError k) := by
  unfold summarize_day
  rcases h with h | h | h
  · rw [h]
    exact ⟨"time", rfl⟩
  · cases hdt : d.daily.time with
    | none => exact ⟨"time", rfl⟩
    | some dates =>
      rw [h]
      exact ⟨"weathercode", rfl⟩
  · cases hdt : d.daily.time with
    | none => exact ⟨"time", rfl⟩
    | some dates =>
      cases hwc : d.daily.weathercode with
      | none => exact ⟨"weathercode", rfl⟩
      | some wcs =>
        rw [h]
        exact ⟨"precipitation_probability_max", rfl⟩

/-- Witness for C1 (amended) on the concrete payload missing the weathercode
field. -/
theorem claim_C1_witness :
    ∃ k, summarize_day noWeathercodePayload "2025-01-01" =
      .error (.keyError k) :=
  claim_C1 noWeathercodePayload "2025-01-01" (Or.inr (Or.inl rfl))

/-- C2: on a well-formed payload whose daily max precipitation for the target
date is exactly 60, the rain branch is not taken (the result is the sunny or
the cloudy description); with the value 61 it is taken (the result is the
rain-possibility line at 61%). -/
theorem claim_C2 (d : Payload) (t : String) (dates : List String)
    (wcs : List Int) (pps : List (Option Int)) (times : List String)
    (probs : List Int) (wc : Int) (ppOpt : Option Int) (dp : List (Int × Int))
    (ht : d.daily.time = some dates)
    (hw : d.daily.weathercode = some wcs)
    (hp : d.daily.precipitation_probability_max = some pps)
    (hmem : dates.contains t = true)
    (hwc : wcs[dates.indexOf t]? = some wc)
    (hpp : pps[dates.indexOf t]? = some ppOpt)
    (hht : d.hourly.time = some times)
    (hhp : d.hourly.precipitation_probability = some probs)
    (hdp : collectDayProbs t (times.zip probs) = .ok dp) :
    (ppOpt = some 60 →
      summarize_day d t = .ok "Dia <b>ensolarado</b>" ∨
      summarize_day d t = .ok "Dia <b>nublado</b>") ∧
    (ppOpt = some 61 →
      summarize_day d t = .ok (rainLine 61 (peakHour dp))) := by
  have hs := summarize_day_eq d t dates wcs pps times probs wc ppOpt dp
    ht hw hp hmem hwc hpp hht hhp hdp
  constructor
  · rintro rfl
    rw [hs]
    unfold classify
    rw [if_neg (by decide)]
    cases hc : SUNNY_CODES.contains wc with
    | true => left; rfl
    | false =>
      right
      rw [ite_self]
      rfl
  · rintro rfl
    rw [hs]
    unfold classify
    rw [if_pos (by decide)]
    rfl

/-- Witness for C2 on the two boundary payloads: at exactly 60% the result is
a sunny/cloudy description; at 61% it is the rain-possibility line. -/
theorem claim_C2_witness :
    (summarize_day borderPayload60 "2025-01-01" = .ok "Dia <b>ensolarado</b>" ∨
      summarize_day borderPayload60 "2025-01-01" = .ok "Dia <b>nublado</b>") ∧
    summarize_day borderPayload61 "2025-01-01" =
      .ok (rainLine 61 (peakHour [(9, 61)])) :=
  ⟨(claim_C2 borderPayload60 "2025-01-01" ["2025-01-01"] [3] [some 60]
      ["2025-01-01T09:00"] [60] 3 (some 60) [(9, 60)]
      rfl rfl rfl rfl rfl rfl rfl rfl (by rfl)).1 rfl,
   (claim_C2 borderPayload61 "2025-01-01" ["2025-01-01"] [3] [some 61]
      ["2025-01-01T09:00"] [61] 3 (some 61) [(9, 61)]
      rfl rfl rfl rfl rfl rfl rfl rfl (by rfl)).2 rfl⟩

/-- C6: on a well-formed payload whose daily max precipitation for the target
date is at most 60, `summarize_day` returns the sunny description when the
weather code is in the curated sunny set, and the cloudy description both
when the code is in the curated cloudy set and when it is in neither set;
the two descriptions are distinct, so the sunny description appears exactly
on the sunny set. -/
theorem claim_C6 (d : Payload) (t : String) (dates : List String)
    (wcs : List Int) (pps : List (Option Int)) (times : List String)
    (probs : List Int) (wc : Int) (ppOpt : Option Int) (dp : List (Int × Int))
    (ht : d.daily.time = some dates)
    (hw : d.daily.weathercode = some wcs)
    (hp : d.daily.precipitation_probability_max = some pps)
    (hmem : dates.contains t = true)
    (hwc : wcs[dates.indexOf t]? = some wc)
    (hpp : pps[dates.indexOf t]? = some ppOpt)
    (hht : d.hourly.time = some times)
    (hhp : d.hourly.precipitation_probability = some probs)
    (hdp : collectDayProbs t (times.zip probs) = .ok dp)
    (h60 : ppOpt.getD 0 ≤ 60) :
    summarize_day d t =
      .ok (if SUNNY_CODES.contains wc then "Dia <b>ensolarado</b>"
        else if CLOUDY_CODES.contains wc then "Dia <b>nublado</b>"
        else "Dia <b>nublado</b>") ∧
    "Dia <b>ensolarado</b>" ≠ "Dia <b>nublado</b>" := by
  have hs := summarize_day_eq d t dates wcs pps times probs wc ppOpt dp
    ht hw hp hmem hwc hpp hht hhp hdp
  refine ⟨?_, by decide⟩
  rw [hs]
  unfold classify
  rw [if_neg (by omega)]

/-- Witness for C6: `sunnyPayload` has weather code 1 and max precipitation
10%, giving the sunny description. -/
theorem claim_C6_witness :
    summarize_day sunnyPayload "2025-01-01" =
      .ok (if SUNNY_CODES.contains 1 then "Dia <b>ensolarado</b>"
        else if CLOUDY_CODES.contains 1 then "Dia <b>nublado</b>"
        else "Dia <b>nublado</b>") ∧
    "Dia <b>ensolarado</b>" ≠ "Dia <b>nublado</b>" :=
  claim_C6 sunnyPayload "2025-01-01" ["2025-01-01"] [1] [some 10] [] [] 1
    (some 10) [] rfl rfl rfl rfl rfl rfl rfl rfl (by rfl) (by decide)

/-- C8: on a well-formed payload whose daily max-precipitation entry for the
target date is null, `summarize_day` treats the value as zero: the rain
branch cannot trigger and the result is the weather-code classification. -/
theorem claim_C8 (d : Payload) (t : String) (dates : List String)
    (wcs : List Int) (pps : List (Option Int)) (times : List String)
    (probs : List Int) (wc : Int) (dp : List (Int × Int))
    (ht : d.daily.time = some dates)
    (hw : d.daily.weathercode = some wcs)
    (hp : d.daily.precipitation_probability_max = some pps)
    (hmem : dates.contains t = true)
    (hwc : wcs[dates.indexOf t]? = some wc)
    (hpp : pps[dates.indexOf t]? = some none)
    (hht : d.hourly.time = some times)
    (hhp : d.hourly.precipitation_probability = some probs)
    (hdp : collectDayProbs t (times.zip probs) = .ok dp) :
    summarize_day d t = .ok (classify wc 0 (peakHour dp)) ∧
    summarize_day d t =
      .ok (if SUNNY_CODES.contains wc then "Dia <b>ensolarado</b>"
        else "Dia <b>nublado</b>") := by
  have hs := summarize_day_eq d t dates wcs pps times probs wc none dp
    ht hw hp hmem hwc hpp hht hhp hdp
  refine ⟨hs, ?_⟩
  rw [hs]
  unfold classify
  rw [if_neg (by decide)]
  cases hc : SUNNY_CODES.contains wc with
  | true => rfl
  | false => rw [ite_self]

/-- Witness for C8: `nullProbPayload` has a null daily probability and
weather code 0, giving the sunny description (the null counted as zero). -/
theorem claim_C8_witness :
    summarize_day nullProbPayload "2025-01-01" =
      .ok (classify 0 0 (peakHour [(10, 30)])) ∧
    summarize_day nullProbPayload "2025-01-01" =
      .ok (if SUNNY_CODES.contains 0 then "Dia <b>ensolarado</b>"
        else "Dia <b>nublado</b>") :=
  claim_C8 nullProbPayload "2025-01-01" ["2025-01-01"] [0] [none]
    ["2025-01-01T10:00"] [30] 0 [(10, 30)]
    rfl rfl rfl rfl rfl rfl rfl rfl (by rfl)

/-- C10: on a well-formed payload that takes the rain branch with a nonempty
filtered hourly list, the percentage in the output is the daily
max-precipitation value (for every hourly probability series, with no
relation between the hourly maximum and the daily value); the hourly peak
probability computed alongside the peak hour never appears in the output. -/
theorem claim_C10 (d : Payload) (t : String) (dates : List String)
    (wcs : List Int) (pps : List (Option Int)) (times : List String)
    (probs : List Int) (wc : Int) (ppOpt : Option Int)
    (x : Int × Int) (ys : List (Int × Int))
    (ht : d.daily.time = some dates)
    (hw : d.daily.weathercode = some wcs)
    (hp : d.daily.precipitation_probability_max = some pps)
    (hmem : dates.contains t = true)
    (hwc : wcs[dates.indexOf t]? = some wc)
    (hpp : pps[dates.indexOf t]? = some ppOpt)
    (hht : d.hourly.time = some times)
    (hhp : d.hourly.precipitation_probability = some probs)
    (hdp : collectDayProbs t (times.zip probs) = .ok (x :: ys))
    (h60 : 60 < ppOpt.getD 0) :
    summarize_day d t =
      .ok (rainLine (ppOpt.getD 0) (some (maxBySecond x ys).1)) := by
  have hs := summarize_day_eq d t dates wcs pps times probs wc ppOpt (x :: ys)
    ht hw hp hmem hwc hpp hht hhp hdp
  rw [hs]
  unfold classify
  rw [if_pos h60]
  rfl

/-- Witness for C10: `rainPayload` has daily max 75% but hourly peak 99% at
hour 14; the output shows 75%, not 99%. -/
theorem claim_C10_witness :
    summarize_day rainPayload "2025-01-01" =
      .ok (rainLine ((some (75 : Int)).getD 0)
        (some (maxBySecond (13, 10) [(14, 99)]).1)) :=
  claim_C10 rainPayload "2025-01-01" ["2025-01-01", "2025-01-02"] [61, 1]
    [some 75, some 10]
    ["2025-01-01T13:00", "2025-01-01T14:00", "2025-01-02T05:00"] [10, 99, 5]
    61 (some 75) (13, 10) [(14, 99)]
    rfl rfl rfl rfl rfl rfl rfl rfl (by rfl) (by decide)

/-- C9: when either credential environment variable is absent or empty, the
script run ends in the startup `RuntimeError` — uniformly in the fetch
oracle, the clock and the argument vector, so no network call can influence
the outcome and no message text is produced. -/
theorem claim_C9 (bot_token chat_id : Option String)
    (h : bot_token = none ∨ bot_token = some "" ∨
      chat_id = none ∨ chat_id = some "")
    (clock : Clock) (fetch : ℚ → ℚ → Except PyErr Payload)
    (argv : List String) :
    script_main bot_token chat_id clock fetch argv =
      .error (.runtimeError
        "Environment variables TG_BOT_TOKEN or TG_CHAT_ID not set.") := by
  have hcred : credentialsMissing bot_token chat_id = true := by
    rcases h with rfl | rfl | rfl | rfl
    · rfl
    · rfl
    · exact Bool.or_true _
    · exact Bool.or_true _
  unfold script_main
  rw [if_pos hcred]

/-- Witness for C9: an unset bot token with a set chat id, an arbitrary
clock, an always-failing fetch oracle and an empty argument vector. -/
theorem claim_C9_witness :
    script_main none (some "chat") witnessClock
      (fun _ _ => .error .indexError) [] =
      .error (.runtimeError
        "Environment variables TG_BOT_TOKEN or TG_CHAT_ID not set.") :=
  claim_C9 none (some "chat") (Or.inl rfl) witnessClock
    (fun _ _ => .error .indexError) []

/-- C7: when both configured locations fetch successfully, the first
location's payload has daily max precipitation 75% for the target date with
its hourly peak at hour 14, and the second location's payload has a sunny
weather code with max precipitation 10%, the composed message is exactly a
title line, a blank line, the 75%-afternoon rain line for Curitiba and the
sunny-day line for Araucária, in declared order. -/
theorem claim_C7
    (clock : Clock) (fetch : ℚ → ℚ → Except PyErr Payload) (mode : String)
    (hmode : pyStrip (pyLower mode) ≠ "tomorrow")
    (d1 d2 : Payload)
    (dates1 : List String) (wcs1 : List Int) (pps1 : List (Option Int))
    (times1 : List String) (probs1 : List Int) (wc1 : Int)
    (dp1 : List (Int × Int))
    (dates2 : List String) (wcs2 : List Int) (pps2 : List (Option Int))
    (times2 : List String) (probs2 : List Int) (wc2 : Int)
    (dp2 : List (Int × Int))
    (hf1 : fetch (-25.4284) (-49.2733) = .ok d1)
    (hf2 : fetch (-25.5874) (-49.4050) = .ok d2)
    (ht1 : d1.daily.time = some dates1)
    (hw1 : d1.daily.weathercode = some wcs1)
    (hp1 : d1.daily.precipitation_probability_max = some pps1)
    (hmem1 : dates1.contains clock.today_str = true)
    (hwc1 : wcs1[dates1.indexOf clock.today_str]? = some wc1)
    (hpp1 : pps1[dates1.indexOf clock.today_str]? = some (some 75))
    (hht1 : d1.hourly.time = some times1)
    (hhp1 : d1.hourly.precipitation_probability = some probs1)
    (hdp1 : collectDayProbs clock.today_str (times1.zip probs1) = .ok dp1)
    (hpk1 : peakHour dp1 = some 14)
    (ht2 : d2.daily.time = some dates2)
    (hw2 : d2.daily.weathercode = some wcs2)
    (hp2 : d2.daily.precipitation_probability_max = some pps2)
    (hmem2 : dates2.contains clock.today_str = true)
    (hwc2 : wcs2[dates2.indexOf clock.today_str]? = some wc2)
    (hpp2 : pps2[dates2.indexOf clock.today_str]? = some (some 10))
    (hsun2 : SUNNY_CODES.contains wc2 = true)
    (hht2 : d2.hourly.time = some times2)
    (hhp2 : d2.hourly.precipitation_probability = some probs2)
    (hdp2 : collectDayProbs clock.today_str (times2.zip probs2) = .ok dp2) :
    run_forecast clock fetch mode =
      .ok ("\n".intercalate
        ["☀️🌧️ <b>Previsão de hoje</b> — " ++ clock.now_br_str, "",
         "• <b>Curitiba</b>: Possibilidade de chuva <b>75%</b> (tarde)",
         "• <b>Araucária</b>: Dia <b>ensolarado</b>"]) := by
  have h1 : summarize_day d1 clock.today_str =
      .ok "Possibilidade de chuva <b>75%</b> (tarde)" := by
    rw [summarize_day_eq d1 clock.today_str dates1 wcs1 pps1 times1 probs1
      wc1 (some 75) dp1 ht1 hw1 hp1 hmem1 hwc1 hpp1 hht1 hhp1 hdp1]
    unfold classify
    rw [hpk1]
    simp only [Option.getD_some]
    rw [if_pos (by norm_num : (75 : Int) > 60)]
    rfl
  have h2 : summarize_day d2 clock.today_str = .ok "Dia <b>ensolarado</b>" := by
    rw [summarize_day_eq d2 clock.today_str dates2 wcs2 pps2 times2 probs2
      wc2 (some 10) dp2 ht2 hw2 hp2 hmem2 hwc2 hpp2 hht2 hhp2 hdp2]
    unfold classify
    simp only [Option.getD_some]
    rw [if_neg (by norm_num : ¬((10 : Int) > 60)), if_pos hsun2]
  have hcl : cityLines fetch clock.today_str CITIES =
      .ok ["• <b>Curitiba</b>: Possibilidade de chuva <b>75%</b> (tarde)",
           "• <b>Araucária</b>: Dia <b>ensolarado</b>"] := by
    simp only [CITIES, cityLines, hf1, hf2, h1, h2]
    rfl
  simp only [run_forecast]
  rw [if_neg hmode]
  rw [hcl]
  show Except.ok ("\n".intercalate
      (("☀️🌧️ <b>Previsão de hoje</b> — " ++ clock.now_br_str ++ "") ::
        "" :: ["• <b>Curitiba</b>: Possibilidade de chuva <b>75%</b> (tarde)",
               "• <b>Araucária</b>: Dia <b>ensolarado</b>"])) = _
  rw [String.append_empty]

/-- Witness for C7: concrete clock, fetch oracle and payloads; the composed
message is exactly the four expected lines. -/
theorem claim_C7_witness :
    run_forecast witnessClock witnessFetch "today" =
      .ok ("\n".intercalate
        ["☀️🌧️ <b>Previsão de hoje</b> — " ++ witnessClock.now_br_str, "",
         "• <b>Curitiba</b>: Possibilidade de chuva <b>75%</b> (tarde)",
         "• <b>Araucária</b>: Dia <b>ensolarado</b>"]) :=
  claim_C7 witnessClock witnessFetch "today" (by decide)
    rainPayload sunnyPayload
    ["2025-01-01", "2025-01-02"] [61, 1] [some 75, some 10]
    ["2025-01-01T13:00", "2025-01-01T14:00", "2025-01-02T05:00"] [10, 99, 5]
    61 [(13, 10), (14, 99)]
    ["2025-01-01"] [1] [some 10] [] [] 1 []
    (by show (if (-25.4284 : ℚ) = -25.4284
          then Except.ok rainPayload else Except.ok sunnyPayload) =
          Except.ok rainPayload
        rw [if_pos rfl])
    (by show (if (-25.5874 : ℚ) = -25.4284
          then Except.ok rainPayload else Except.ok sunnyPayload) =
          Except.ok sunnyPayload
        rw [if_neg (by norm_num)])
    rfl rfl rfl rfl rfl rfl rfl rfl (by rfl) (by rfl)
    rfl rfl rfl rfl rfl rfl rfl rfl rfl (by rfl)
